import Mathlib

/-!
Shallow embedding of the VAP (Ventilator-Associated Pneumonia) risk
assessment repository.

The repository has three scripts:
* strategy_2.py — an additive risk scorer (calculate_vap_risk), a band
  classifier (determine_risk_level), input validation (inside
  input_patient_data) and batch processing (batch_process_patients);
* strategy3.py — a near-duplicate of the scorer and classifier with
  different report text;
* strategy_1_decision_tree.py — a layered yes/no decision tree producing
  one of five terminal risk categories.

Patient records are Python dicts with string-valued categorical fields and
integer fields; they are embedded as a structure with the same field names.
Console I/O and plotting are out of scope; the pure rule evaluation is
embedded as total functions.
-/

/-- A patient record, mirroring the dict built by input_patient_data in
strategy_2.py and strategy3.py.  Categorical and boolean-like fields are
strings, exactly as in the source (the scorer compares them to string
literals and never coerces them). -/
structure PatientData where
  age : Int
  intubation_route : String
  ventilation_duration_h : Int
  subglottic_drainage : String
  bed_head_elevation_deg : Int
  closed_suction_system : String
  oral_antiseptic : String
  fever : String
  leukocytosis : String
  chest_radiograph : String
deriving DecidableEq, Repr

/-- Field update for subglottic_drainage (records are immutable). -/
def set_subglottic_drainage (p : PatientData) (v : String) : PatientData :=
  ⟨p.age, p.intubation_route, p.ventilation_duration_h, v,
   p.bed_head_elevation_deg, p.closed_suction_system, p.oral_antiseptic,
   p.fever, p.leukocytosis, p.chest_radiograph⟩

/-- Field update for closed_suction_system. -/
def set_closed_suction_system (p : PatientData) (v : String) : PatientData :=
  ⟨p.age, p.intubation_route, p.ventilation_duration_h, p.subglottic_drainage,
   p.bed_head_elevation_deg, v, p.oral_antiseptic,
   p.fever, p.leukocytosis, p.chest_radiograph⟩

/-- Field update for fever. -/
def set_fever (p : PatientData) (v : String) : PatientData :=
  ⟨p.age, p.intubation_route, p.ventilation_duration_h, p.subglottic_drainage,
   p.bed_head_elevation_deg, p.closed_suction_system, p.oral_antiseptic,
   v, p.leukocytosis, p.chest_radiograph⟩

/-- Field update for leukocytosis. -/
def set_leukocytosis (p : PatientData) (v : String) : PatientData :=
  ⟨p.age, p.intubation_route, p.ventilation_duration_h, p.subglottic_drainage,
   p.bed_head_elevation_deg, p.closed_suction_system, p.oral_antiseptic,
   p.fever, v, p.chest_radiograph⟩

/-- Field update for chest_radiograph. -/
def set_chest_radiograph (p : PatientData) (v : String) : PatientData :=
  ⟨p.age, p.intubation_route, p.ventilation_duration_h, p.subglottic_drainage,
   p.bed_head_elevation_deg, p.closed_suction_system, p.oral_antiseptic,
   p.fever, p.leukocytosis, v⟩

namespace Strategy2

/-- Block 1 of calculate_vap_risk (strategy_2.py lines 42-46): intubation
route contribution.  Any route other than the two known strings leaves the
running total unchanged (contribution 0). -/
def intubation_route_points (p : PatientData) : Int :=
  if p.intubation_route = "nasotracheal" then 3
  else if p.intubation_route = "orotracheal" then -2
  else 0

/-- Block 2 (lines 48-52): duration of mechanical ventilation. -/
def ventilation_duration_points (p : PatientData) : Int :=
  if p.ventilation_duration_h > 72 then 3
  else if 24 ≤ p.ventilation_duration_h ∧ p.ventilation_duration_h ≤ 72 then 1
  else 0

/-- Block 3 (lines 54-59): subglottic secretion drainage, only evaluated
when duration exceeds 72h; the else branch fires for every value other
than the exact string "yes". -/
def subglottic_drainage_points (p : PatientData) : Int :=
  if p.ventilation_duration_h > 72 then
    (if p.subglottic_drainage = "yes" then -2 else 2)
  else 0

/-- Block 4 (lines 61-65): bed head elevation. -/
def bed_head_elevation_points (p : PatientData) : Int :=
  if p.bed_head_elevation_deg ≥ 45 then -2
  else if p.bed_head_elevation_deg < 30 then 2
  else 0

/-- Block 5 (lines 67-71): closed suction system; the else branch fires
for every value other than the exact string "yes". -/
def closed_suction_points (p : PatientData) : Int :=
  if p.closed_suction_system = "yes" then -1 else 1

/-- Block 6 (lines 73-75): oral antiseptics (Python membership test in
the two-element list). -/
def oral_antiseptic_points (p : PatientData) : Int :=
  if p.oral_antiseptic = "chlorhexidine" ∨ p.oral_antiseptic = "povidone-iodine"
  then -1 else 0

/-- Block 7a (lines 78-79): fever. -/
def fever_points (p : PatientData) : Int :=
  if p.fever = "yes" then 2 else 0

/-- Block 7b (lines 80-81): leukocytosis. -/
def leukocytosis_points (p : PatientData) : Int :=
  if p.leukocytosis = "yes" then 2 else 0

/-- Block 7c (lines 82-83): chest radiograph infiltrates. -/
def chest_radiograph_points (p : PatientData) : Int :=
  if p.chest_radiograph = "yes" then 3 else 0

/-- The value of the risk_score accumulator in calculate_vap_risk just
before the final return: the sequential additions of the numbered blocks,
starting from 0, in source order. -/
def risk_score (p : PatientData) : Int :=
  intubation_route_points p + ventilation_duration_points p
    + subglottic_drainage_points p + bed_head_elevation_points p
    + closed_suction_points p + oral_antiseptic_points p
    + fever_points p + leukocytosis_points p + chest_radiograph_points p

/-- calculate_vap_risk (strategy_2.py lines 35-86): the accumulated score
clamped by the return line max(0, min(risk_score, 20)).  The function is
total: it inspects fields and raises nothing. -/
def calculate_vap_risk (p : PatientData) : Int :=
  max 0 (min (risk_score p) 20)

/-- The dict returned by determine_risk_level in strategy_2.py. -/
structure RiskAssessment where
  risk_level : String
  recommendation : String
deriving DecidableEq, Repr

/-- determine_risk_level (strategy_2.py lines 88-107). -/
def determine_risk_level (risk_score : Int) : RiskAssessment :=
  if risk_score < 5 then
    ⟨ "Low Risk",
      "Maintain standard VAP prevention measures (per base_paper.pdf): use orotracheal intubation if possible, keep bed head elevated ≥45°, and perform regular ventilator circuit checks (change only if soiled/damaged)." ⟩
  else if 5 ≤ risk_score ∧ risk_score ≤ 12 then
    ⟨ "Medium Risk",
      "Intensify prevention (per base_paper.pdf): implement oral antiseptic rinses (chlorhexidine/povidone-iodine), ensure closed suction system use, and monitor for signs of sinusitis. Continue bed head elevation ≥45°." ⟩
  else
    ⟨ "High Risk",
      "Urgent intervention (per base_paper.pdf): initiate subglottic secretion drainage (if ventilation >72h), optimize bed head elevation to 45°, use rotating beds if feasible, and closely monitor infection markers (fever, leukocytosis, chest radiographs). Avoid bacterial filters (not recommended in base_paper.pdf)." ⟩

/-- Valid intubation routes (strategy_2.py line 22). -/
def valid_routes : List String := ["orotracheal", "nasotracheal"]

/-- Valid oral antiseptics (line 23). -/
def valid_antiseptics : List String := ["chlorhexidine", "povidone-iodine", "none"]

/-- Valid boolean-like answers (line 24). -/
def valid_booleans : List String := ["yes", "no"]

/-- The validation performed inside input_patient_data (strategy_2.py
lines 26-31), separated from the console prompting: the three checks in
source order, the first failing one raising ValueError with the message
shown (source messages quote the valid values; quotes elided here).
This validation is reached only on the single-patient interactive path;
batch_process_patients never calls it. -/
def validate_patient_data (p : PatientData) : Except String PatientData :=
  if p.intubation_route ∉ valid_routes then
    Except.error "Intubation route must be orotracheal or nasotracheal (per base_paper.pdf)"
  else if p.oral_antiseptic ∉ valid_antiseptics then
    Except.error "Oral antiseptic must be chlorhexidine, povidone-iodine, or none (per base_paper.pdf)"
  else if p.subglottic_drainage ∉ valid_booleans then
    Except.error "Subglottic drainage input must be yes or no"
  else Except.ok p

/-- One element of the list returned by batch_process_patients: either a
successful assessment dict or the error dict built in the except-ValueError
branch (strategy_2.py lines 175-179). -/
inductive BatchEntry where
  | assessment (patient_id : Nat) (age : Int) (ventilation_duration_h : Int)
      (risk_score : Int) (risk_level : String) (recommendation : String) : BatchEntry
  | failure (patient_id : Nat) (message : String) : BatchEntry
deriving DecidableEq, Repr

/-- batch_process_patients (strategy_2.py lines 157-180): enumerate the
batch from 1 and, for each record, compute calculate_vap_risk and
determine_risk_level and append an assessment entry.  The source wraps the
body in try/except ValueError, appending a BatchEntry.failure instead when
a ValueError escapes; calculate_vap_risk and determine_risk_level contain
no raise and no int() parsing, so no ValueError can ever be thrown there
and the embedding of the loop body is the try branch alone. -/
def batch_process_patients (batch_data : List PatientData) : List BatchEntry :=
  batch_data.enum.map fun e =>
    let score := calculate_vap_risk e.2
    let assessment := determine_risk_level score
    BatchEntry.assessment (e.1 + 1) e.2.age e.2.ventilation_duration_h
      score assessment.risk_level assessment.recommendation

end Strategy2

namespace Strategy3

/-- Intubation route block of calculate_vap_risk (strategy3.py lines 37-41). -/
def intubation_route_points (p : PatientData) : Int :=
  if p.intubation_route = "nasotracheal" then 3
  else if p.intubation_route = "orotracheal" then -2
  else 0

/-- Ventilation duration block (lines 43-47). -/
def ventilation_duration_points (p : PatientData) : Int :=
  if p.ventilation_duration_h > 72 then 3
  else if 24 ≤ p.ventilation_duration_h ∧ p.ventilation_duration_h ≤ 72 then 1
  else 0

/-- Subglottic drainage block (lines 49-54), gated on duration > 72h. -/
def subglottic_drainage_points (p : PatientData) : Int :=
  if p.ventilation_duration_h > 72 then
    (if p.subglottic_drainage = "yes" then -2 else 2)
  else 0

/-- Bed head elevation block (lines 56-60). -/
def bed_head_elevation_points (p : PatientData) : Int :=
  if p.bed_head_elevation_deg ≥ 45 then -2
  else if p.bed_head_elevation_deg < 30 then 2
  else 0

/-- Closed suction system block (lines 62-66). -/
def closed_suction_points (p : PatientData) : Int :=
  if p.closed_suction_system = "yes" then -1 else 1

/-- Oral antiseptic block (lines 68-70). -/
def oral_antiseptic_points (p : PatientData) : Int :=
  if p.oral_antiseptic = "chlorhexidine" ∨ p.oral_antiseptic = "povidone-iodine"
  then -1 else 0

/-- Fever line (lines 73-74). -/
def fever_points (p : PatientData) : Int :=
  if p.fever = "yes" then 2 else 0

/-- Leukocytosis line (lines 75-76). -/
def leukocytosis_points (p : PatientData) : Int :=
  if p.leukocytosis = "yes" then 2 else 0

/-- Chest radiograph line (lines 77-78). -/
def chest_radiograph_points (p : PatientData) : Int :=
  if p.chest_radiograph = "yes" then 3 else 0

/-- The risk_score accumulator of strategy3.py just before the clamp. -/
def risk_score (p : PatientData) : Int :=
  intubation_route_points p + ventilation_duration_points p
    + subglottic_drainage_points p + bed_head_elevation_points p
    + closed_suction_points p + oral_antiseptic_points p
    + fever_points p + leukocytosis_points p + chest_radiograph_points p

/-- calculate_vap_risk (strategy3.py lines 33-81). -/
def calculate_vap_risk (p : PatientData) : Int :=
  max 0 (min (risk_score p) 20)

/-- The dict returned by determine_risk_level in strategy3.py; the source
key case_control_ratio is embedded under the field name case_control_stats. -/
structure RiskAssessment where
  risk_level : String
  case_control_stats : String
  explanation : String
  recommendation : String
deriving DecidableEq, Repr

/-- determine_risk_level (strategy3.py lines 83-120). -/
def determine_risk_level (risk_score : Int) : RiskAssessment :=
  if risk_score < 5 then
    ⟨ "Low Risk",
      "Cases (8, 3.2%); Controls (242, 96.8%)",
      "Patient presents with minimal risk factors for VAP development",
      "   - Routine mechanical ventilation care; replace heat and moisture exchangers weekly (if not contaminated)\n   - Monitor WBC count and chest imaging once weekly\n   - Immediately recheck relevant indicators if fever (≥38℃) occurs" ⟩
  else if 5 ≤ risk_score ∧ risk_score ≤ 12 then
    ⟨ "Moderate Risk",
      "Cases (48, 31.5%); Controls (104, 68.5%)",
      "Patient has several risk factors that warrant closer monitoring",
      "   - Closely monitor mechanical ventilation duration; prepare for subglottic drainage if ≥72h is expected\n   - Recheck WBC count and oxygenation index every 2 days\n   - Maintain head-of-bed elevation at 30-45°; avoid supine position\n   - Implement oral antiseptic rinses (chlorhexidine/povidone-iodine) as preventive measure" ⟩
  else
    ⟨ "High Risk",
      "Cases (156, 78.4%); Controls (43, 21.6%)",
      "Patient meets multiple high-risk criteria for VAP development",
      "   - Immediately initiate subglottic secretion drainage (for patients with ventilation ≥72h)\n   - Maintain head-of-bed elevation at 45° (or as close as possible if contraindicated)\n   - Use a closed endotracheal suctioning system; replace heat and moisture exchangers every 5-7 days\n   - Daily monitoring of body temperature, WBC count, and chest imaging changes\n   - Consider rotating beds if feasible to reduce pulmonary complications" ⟩

end Strategy3

namespace Strategy1

/-- The boolean gates of the decision tree in strategy_1_decision_tree.py,
named after the source variables.  The source gathers each gate lazily,
only on the branch that needs it; the embedding carries all of them and
the tree reads only those on the active path. -/
structure TreeInput where
  ventilation_ge72 : Bool
  chest_imaging : Bool
  fever : Bool
  wbc_abnormal : Bool
  oxygen_abnormal : Bool
  age_ge65 : Bool
  has_complication : Bool
deriving DecidableEq, Repr

/-- The risk_result dict assigned at each terminal of the tree; the source
key case_control_ratio is embedded under the field name case_control_stats. -/
structure TreeResult where
  risk_level : String
  case_control_stats : String
  explanation : String
deriving DecidableEq, Repr

/-- The layered decision logic of strategy_1_decision_tree.py (lines
47-131): first layer chest imaging, second layer ventilation duration,
third layer fever or WBC abnormality, supplementary oxygenation index, or
the age/comorbidity branch when ventilation is below 72h. -/
def risk_result (i : TreeInput) : TreeResult :=
  if !i.chest_imaging then
    ⟨ "Low Risk",
      "Cases (8, 3.2%); Controls (242, 96.8%)",
      "No chest imaging infiltrates, which does not meet the core diagnostic criteria for VAP." ⟩
  else if i.ventilation_ge72 then
    if i.fever || i.wbc_abnormal then
      ⟨ "High Risk",
        "Cases (156, 78.4%); Controls (43, 21.6%)",
        "Chest imaging infiltrates + mechanical ventilation ≥72h + fever/WBC abnormality, meeting VAP diagnostic criteria." ⟩
    else if i.oxygen_abnormal then
      ⟨ "Moderate-High Risk",
        "Cases (72, 54.2%); Controls (61, 45.8%)",
        "Chest imaging infiltrates + mechanical ventilation ≥72h + abnormal oxygenation, indicating high VAP risk." ⟩
    else
      ⟨ "Moderate Risk",
        "Cases (35, 27.1%); Controls (94, 72.9%)",
        "Chest imaging infiltrates + mechanical ventilation ≥72h, but no other symptoms; close monitoring required." ⟩
  else if i.age_ge65 || i.has_complication then
    ⟨ "Moderate Risk",
      "Cases (48, 31.5%); Controls (104, 68.5%)",
      "Chest imaging infiltrates + elderly/comorbidities; even with ventilation <72h, VAP vigilance is needed." ⟩
  else
    ⟨ "Low-Moderate Risk",
      "Cases (22, 14.3%); Controls (132, 85.7%)",
      "Chest imaging infiltrates, but ventilation <72h + no elderly/comorbidities; low VAP risk." ⟩

end Strategy1

/-- The second record of sample_batch in strategy_2.py (lines 214-225),
which is also scenario B of the spec: orotracheal, 48h, elevation 45°,
closed suction, chlorhexidine, no fever, no leukocytosis, no infiltrates. -/
def scenarioB : PatientData :=
  ⟨52, "orotracheal", 48, "no", 45, "yes", "chlorhexidine", "no", "no", "no"⟩

/-- The first record of sample_batch in strategy_2.py (lines 202-213),
which is also scenario A of the spec: nasotracheal, 96h, no drainage,
elevation 25°, open suction, no antiseptic, fever, leukocytosis and
infiltrates all present. -/
def scenarioA : PatientData :=
  ⟨68, "nasotracheal", 96, "no", 25, "no", "none", "yes", "yes", "yes"⟩

/-- A malformed record whose intubation_route is neither orotracheal nor
nasotracheal; every other field is well formed. -/
def badRouteRecord : PatientData :=
  ⟨60, "oral", 96, "no", 40, "no", "none", "yes", "no", "yes"⟩

/-! ## Helper lemmas -/

/-- The two scorer scripts transcribe to identical functions, so their
scores agree definitionally (shared helper). -/
theorem strategy3_calc_eq (p : PatientData) :
    Strategy3.calculate_vap_risk p = Strategy2.calculate_vap_risk p := rfl

theorem intubation_route_points_le (p : PatientData) :
    Strategy2.intubation_route_points p ≤ 3 := by
  unfold Strategy2.intubation_route_points; split_ifs <;> omega

theorem ventilation_duration_points_le (p : PatientData) :
    Strategy2.ventilation_duration_points p ≤ 3 := by
  unfold Strategy2.ventilation_duration_points; split_ifs <;> omega

theorem subglottic_drainage_points_le (p : PatientData) :
    Strategy2.subglottic_drainage_points p ≤ 2 := by
  unfold Strategy2.subglottic_drainage_points; split_ifs <;> omega

theorem bed_head_elevation_points_le (p : PatientData) :
    Strategy2.bed_head_elevation_points p ≤ 2 := by
  unfold Strategy2.bed_head_elevation_points; split_ifs <;> omega

theorem closed_suction_points_le (p : PatientData) :
    Strategy2.closed_suction_points p ≤ 1 := by
  unfold Strategy2.closed_suction_points; split_ifs <;> omega

theorem oral_antiseptic_points_le (p : PatientData) :
    Strategy2.oral_antiseptic_points p ≤ 0 := by
  unfold Strategy2.oral_antiseptic_points; split_ifs <;> omega

theorem fever_points_le (p : PatientData) :
    Strategy2.fever_points p ≤ 2 := by
  unfold Strategy2.fever_points; split_ifs <;> omega

theorem leukocytosis_points_le (p : PatientData) :
    Strategy2.leukocytosis_points p ≤ 2 := by
  unfold Strategy2.leukocytosis_points; split_ifs <;> omega

theorem chest_radiograph_points_le (p : PatientData) :
    Strategy2.chest_radiograph_points p ≤ 3 := by
  unfold Strategy2.chest_radiograph_points; split_ifs <;> omega

/-- The risk_score accumulator never exceeds 18, the sum of the maximal
contributions 3+3+2+2+1+0+2+2+3. -/
theorem risk_score_le_18 (p : PatientData) : Strategy2.risk_score p ≤ 18 := by
  have h1 := intubation_route_points_le p
  have h2 := ventilation_duration_points_le p
  have h3 := subglottic_drainage_points_le p
  have h4 := bed_head_elevation_points_le p
  have h5 := closed_suction_points_le p
  have h6 := oral_antiseptic_points_le p
  have h7 := fever_points_le p
  have h8 := leukocytosis_points_le p
  have h9 := chest_radiograph_points_le p
  unfold Strategy2.risk_score
  omega

/-- Scores are insensitive to the subglottic_drainage field when the
ventilation duration is at most 72 hours (shared helper). -/
theorem calc2_set_drainage (p : PatientData) (d : String)
    (h : p.ventilation_duration_h ≤ 72) :
    Strategy2.calculate_vap_risk (set_subglottic_drainage p d) =
      Strategy2.calculate_vap_risk p := by
  have hv : ¬ (p.ventilation_duration_h > 72) := by omega
  simp [Strategy2.calculate_vap_risk, Strategy2.risk_score, set_subglottic_drainage,
    Strategy2.intubation_route_points, Strategy2.ventilation_duration_points,
    Strategy2.subglottic_drainage_points, Strategy2.bed_head_elevation_points,
    Strategy2.closed_suction_points, Strategy2.oral_antiseptic_points,
    Strategy2.fever_points, Strategy2.leukocytosis_points,
    Strategy2.chest_radiograph_points, hv]

/-! ## Claims -/

/-- C1: for every patient record, including contrived inputs whose
unclamped contribution sum is below 0 or above 20, calculate_vap_risk (in
both strategy_2.py and strategy3.py) returns an integer in the closed
interval [0,20]. -/
theorem c1_score_in_unit_range (p : PatientData) :
    (0 ≤ Strategy2.calculate_vap_risk p ∧ Strategy2.calculate_vap_risk p ≤ 20) ∧
    (0 ≤ Strategy3.calculate_vap_risk p ∧ Strategy3.calculate_vap_risk p ≤ 20) := by
  unfold Strategy2.calculate_vap_risk Strategy3.calculate_vap_risk
  omega

/-- C2: determine_risk_level (total and deterministic by construction) has
three contiguous bands closed at 5 and 12: every score below 5 is Low
Risk, every score in [5,12] is the moderate band (labelled Medium Risk in
strategy_2.py and Moderate Risk in strategy3.py), and every score above 12
is High Risk; in particular 4 is Low, 5 and 12 are moderate, 13 is High. -/
theorem c2_risk_bands (s : Int) :
    (s < 5 → (Strategy2.determine_risk_level s).risk_level = "Low Risk" ∧
             (Strategy3.determine_risk_level s).risk_level = "Low Risk") ∧
    (5 ≤ s → s ≤ 12 →
             (Strategy2.determine_risk_level s).risk_level = "Medium Risk" ∧
             (Strategy3.determine_risk_level s).risk_level = "Moderate Risk") ∧
    (12 < s → (Strategy2.determine_risk_level s).risk_level = "High Risk" ∧
             (Strategy3.determine_risk_level s).risk_level = "High Risk") := by
  unfold Strategy2.determine_risk_level Strategy3.determine_risk_level
  refine ⟨fun h => ?_, fun h1 h2 => ?_, fun h => ?_⟩ <;>
    constructor <;> (split_ifs <;> first | rfl | omega)

/-- Witness for C2 at the four boundary scores 4, 5, 12 and 13. -/
theorem c2_risk_bands_witness :
    ((4 : Int) < 5 ∧ (Strategy2.determine_risk_level 4).risk_level = "Low Risk") ∧
    ((5 : Int) ≤ 5 ∧ (5 : Int) ≤ 12 ∧
      (Strategy2.determine_risk_level 5).risk_level = "Medium Risk" ∧
      (Strategy3.determine_risk_level 5).risk_level = "Moderate Risk") ∧
    ((Strategy2.determine_risk_level 12).risk_level = "Medium Risk") ∧
    ((12 : Int) < 13 ∧ (Strategy2.determine_risk_level 13).risk_level = "High Risk" ∧
      (Strategy3.determine_risk_level 13).risk_level = "High Risk") :=
  ⟨⟨by norm_num, ((c2_risk_bands 4).1 (by norm_num)).1⟩,
   ⟨by norm_num, by norm_num,
    ((c2_risk_bands 5).2.1 (by norm_num) (by norm_num)).1,
    ((c2_risk_bands 5).2.1 (by norm_num) (by norm_num)).2⟩,
   ((c2_risk_bands 12).2.1 (by norm_num) (by norm_num)).1,
   ⟨by norm_num, ((c2_risk_bands 13).2.2 (by norm_num)).1,
    ((c2_risk_bands 13).2.2 (by norm_num)).2⟩⟩

/-- C3: evaluation of the code at the failing input.  A batch holding one
valid record and one record with an invalid intubation route yields two
normal assessment entries and no error entry: calculate_vap_risk performs
no categorical validation and raises no ValueError (the except branch of
batch_process_patients is unreachable), while the same malformed record is
rejected by the validation inside input_patient_data on the single-patient
interactive path. -/
theorem c3_batch_invalid_route_scored_normally :
    Strategy2.validate_patient_data badRouteRecord =
      Except.error "Intubation route must be orotracheal or nasotracheal (per base_paper.pdf)" ∧
    Strategy2.batch_process_patients [scenarioB, badRouteRecord] =
      [Strategy2.BatchEntry.assessment 1 52 48 0 "Low Risk"
        (Strategy2.determine_risk_level 0).recommendation,
       Strategy2.BatchEntry.assessment 2 60 96 11 "Medium Risk"
        (Strategy2.determine_risk_level 11).recommendation] := by
  constructor <;> rfl

/-- C4: in the decision-tree classifier, whenever chest imaging shows no
infiltrates the result is the Low Risk terminal, regardless of all other
gate values. -/
theorem c4_no_infiltrates_low_risk (i : Strategy1.TreeInput)
    (h : i.chest_imaging = false) :
    (Strategy1.risk_result i).risk_level = "Low Risk" := by
  unfold Strategy1.risk_result
  rw [h]
  rfl

/-- Witness for C4: all other gates true, imaging false, still Low Risk. -/
theorem c4_no_infiltrates_low_risk_witness :
    Strategy1.TreeInput.chest_imaging ⟨true, false, true, true, true, true, true⟩ = false ∧
    (Strategy1.risk_result ⟨true, false, true, true, true, true, true⟩).risk_level = "Low Risk" :=
  ⟨rfl, c4_no_infiltrates_low_risk ⟨true, false, true, true, true, true, true⟩ rfl⟩

/-- C5: two records that agree on every field except subglottic_drainage
and whose ventilation duration is at most 72 hours receive the same score
from calculate_vap_risk in both scorer scripts (the drainage factor is
gated on duration > 72h). -/
theorem c5_drainage_noninterference (p q : PatientData)
    (hage : p.age = q.age)
    (hroute : p.intubation_route = q.intubation_route)
    (hdur : p.ventilation_duration_h = q.ventilation_duration_h)
    (helev : p.bed_head_elevation_deg = q.bed_head_elevation_deg)
    (hsuction : p.closed_suction_system = q.closed_suction_system)
    (hanti : p.oral_antiseptic = q.oral_antiseptic)
    (hfever : p.fever = q.fever)
    (hleuk : p.leukocytosis = q.leukocytosis)
    (hchest : p.chest_radiograph = q.chest_radiograph)
    (hle : p.ventilation_duration_h ≤ 72) :
    Strategy2.calculate_vap_risk p = Strategy2.calculate_vap_risk q ∧
    Strategy3.calculate_vap_risk p = Strategy3.calculate_vap_risk q := by
  have hq : q = set_subglottic_drainage p q.subglottic_drainage := by
    cases p; cases q; simp_all [set_subglottic_drainage]
  have h2 : Strategy2.calculate_vap_risk p = Strategy2.calculate_vap_risk q := by
    have h := calc2_set_drainage p q.subglottic_drainage hle
    rw [← h]
    exact congrArg Strategy2.calculate_vap_risk hq.symm ▸ rfl
  exact ⟨h2, by rw [strategy3_calc_eq, strategy3_calc_eq]; exact h2⟩

/-- Witness for C5: scenario B (48h duration) with the drainage flag
flipped keeps its score. -/
theorem c5_drainage_noninterference_witness :
    scenarioB.ventilation_duration_h ≤ 72 ∧
    Strategy2.calculate_vap_risk scenarioB =
      Strategy2.calculate_vap_risk (set_subglottic_drainage scenarioB "yes") :=
  ⟨by decide,
   (c5_drainage_noninterference scenarioB (set_subglottic_drainage scenarioB "yes")
     rfl rfl rfl rfl rfl rfl rfl rfl rfl (by decide)).1⟩

/-- C6 counterexample: for scenario B the unclamped accumulator value is
−5, not the −4 of the claim (the claim forgets one of the two −1
contributions, closed suction and chlorhexidine). -/
theorem c6_counterexample :
    Strategy2.risk_score scenarioB = -5 ∧ Strategy2.risk_score scenarioB ≠ -4 := by
  decide

/-- C6 (amended): for scenario B the unclamped contribution sum is
−2+1−2−1−1 = −5 (orotracheal −2, duration 48h in 24-72h +1, elevation
≥45° −2, closed suction −1, chlorhexidine −1), the clamped score is 0,
and determine_risk_level classifies it as Low Risk. -/
theorem c6_scenarioB_low_risk :
    Strategy2.risk_score scenarioB = -5 ∧
    Strategy2.calculate_vap_risk scenarioB = 0 ∧
    (Strategy2.determine_risk_level (Strategy2.calculate_vap_risk scenarioB)).risk_level
      = "Low Risk" := by
  decide

/-- C7: each of the decision tree's five terminal risk categories is
reachable by at least one combination of the boolean gates. -/
theorem c7_all_terminals_reachable :
    (∃ i : Strategy1.TreeInput, (Strategy1.risk_result i).risk_level = "Low Risk") ∧
    (∃ i : Strategy1.TreeInput, (Strategy1.risk_result i).risk_level = "Low-Moderate Risk") ∧
    (∃ i : Strategy1.TreeInput, (Strategy1.risk_result i).risk_level = "Moderate Risk") ∧
    (∃ i : Strategy1.TreeInput, (Strategy1.risk_result i).risk_level = "Moderate-High Risk") ∧
    (∃ i : Strategy1.TreeInput, (Strategy1.risk_result i).risk_level = "High Risk") :=
  ⟨⟨⟨false, false, false, false, false, false, false⟩, rfl⟩,
   ⟨⟨false, true, false, false, false, false, false⟩, rfl⟩,
   ⟨⟨true, true, false, false, false, false, false⟩, rfl⟩,
   ⟨⟨true, true, false, false, true, false, false⟩, rfl⟩,
   ⟨⟨true, true, true, false, false, false, false⟩, rfl⟩⟩

/-- C8: the two near-duplicate scorer variants are behaviourally
equivalent: strategy_2.py and strategy3.py compute the same score on every
record. -/
theorem c8_scorers_equivalent (p : PatientData) :
    Strategy2.calculate_vap_risk p = Strategy3.calculate_vap_risk p := rfl

/-- C9: for every record the returned score is at most 18 (sum of maximal
contributions 3+3+2+2+1+0+2+2+3), so the upper clamp bound 20 is never
attained; 18 itself is attained at scenario A. -/
theorem c9_score_at_most_18 :
    (∀ p : PatientData, Strategy2.calculate_vap_risk p ≤ 18 ∧
                        Strategy3.calculate_vap_risk p ≤ 18) ∧
    Strategy2.calculate_vap_risk scenarioA = 18 := by
  refine ⟨fun p => ?_, by decide⟩
  have h := risk_score_le_18 p
  have h3 := strategy3_calc_eq p
  rw [h3]
  unfold Strategy2.calculate_vap_risk
  constructor <;> omega

/-- C10: the boolean-like string fields are compared only against the
exact string "yes": any other value of closed_suction_system contributes
+1, any other value of subglottic_drainage contributes +2 when the
duration exceeds 72h, fever, leukocytosis and chest_radiograph contribute
their positive weights exactly when "yes" and 0 otherwise, and any
malformed value behaves like "no" in both scorer scripts (no error is
raised: the scorer is total). -/
theorem c10_yes_comparison_only (p : PatientData) (x : String) (hx : x ≠ "yes") :
    Strategy2.closed_suction_points (set_closed_suction_system p x) = 1 ∧
    (p.ventilation_duration_h > 72 →
      Strategy2.subglottic_drainage_points (set_subglottic_drainage p x) = 2) ∧
    Strategy2.fever_points (set_fever p x) = 0 ∧
    Strategy2.leukocytosis_points (set_leukocytosis p x) = 0 ∧
    Strategy2.chest_radiograph_points (set_chest_radiograph p x) = 0 ∧
    Strategy2.fever_points (set_fever p "yes") = 2 ∧
    Strategy2.leukocytosis_points (set_leukocytosis p "yes") = 2 ∧
    Strategy2.chest_radiograph_points (set_chest_radiograph p "yes") = 3 ∧
    Strategy2.calculate_vap_risk (set_closed_suction_system p x) =
      Strategy2.calculate_vap_risk (set_closed_suction_system p "no") ∧
    Strategy2.calculate_vap_risk (set_subglottic_drainage p x) =
      Strategy2.calculate_vap_risk (set_subglottic_drainage p "no") ∧
    Strategy2.calculate_vap_risk (set_fever p x) =
      Strategy2.calculate_vap_risk (set_fever p "no") ∧
    Strategy2.calculate_vap_risk (set_leukocytosis p x) =
      Strategy2.calculate_vap_risk (set_leukocytosis p "no") ∧
    Strategy2.calculate_vap_risk (set_chest_radiograph p x) =
      Strategy2.calculate_vap_risk (set_chest_radiograph p "no") ∧
    Strategy3.calculate_vap_risk (set_closed_suction_system p x) =
      Strategy3.calculate_vap_risk (set_closed_suction_system p "no") ∧
    Strategy3.calculate_vap_risk (set_subglottic_drainage p x) =
      Strategy3.calculate_vap_risk (set_subglottic_drainage p "no") ∧
    Strategy3.calculate_vap_risk (set_fever p x) =
      Strategy3.calculate_vap_risk (set_fever p "no") ∧
    Strategy3.calculate_vap_risk (set_leukocytosis p x) =
      Strategy3.calculate_vap_risk (set_leukocytosis p "no") ∧
    Strategy3.calculate_vap_risk (set_chest_radiograph p x) =
      Strategy3.calculate_vap_risk (set_chest_radiograph p "no") := by
  simp only [strategy3_calc_eq]
  refine ⟨?_, fun h72 => ?_, ?_, ?_, ?_, ?_, ?_, ?_, ?_, ?_, ?_, ?_, ?_, ?_, ?_, ?_, ?_, ?_⟩ <;>
    simp [*, Strategy2.calculate_vap_risk, Strategy2.risk_score,
      set_closed_suction_system, set_subglottic_drainage, set_fever,
      set_leukocytosis, set_chest_radiograph,
      Strategy2.intubation_route_points, Strategy2.ventilation_duration_points,
      Strategy2.subglottic_drainage_points, Strategy2.bed_head_elevation_points,
      Strategy2.closed_suction_points, Strategy2.oral_antiseptic_points,
      Strategy2.fever_points, Strategy2.leukocytosis_points,
      Strategy2.chest_radiograph_points]

/-- Witness for C10 at scenario A with the malformed value "maybe". -/
theorem c10_yes_comparison_only_witness :
    ("maybe" : String) ≠ "yes" ∧
    Strategy2.closed_suction_points (set_closed_suction_system scenarioA "maybe") = 1 :=
  ⟨by decide, (c10_yes_comparison_only scenarioA "maybe" (by decide)).1⟩
